import Mathlib

/-!
Shallow embedding of the libremidi backend drivers under verification:
`midi_out_alsa` (src/include/libremidi/backends/alsa_seq/midi_out.hpp) and
`midi_in_jack` (src/include/libremidi/backends/jack/midi_in.hpp).

Native subsystem calls (ALSA sequencer, JACK server) are modelled as
environment oracles supplying the results the native library would return;
the driver code itself is translated statement by statement.  Reported
warnings/errors and native side calls are collected in an effect list so
that "reports a warning", "performs no native binding" and similar spec
sentences become statements about that list.
-/

/-- Observable effects of a driver operation: reports through the
error/warning side channel and calls into the native subsystem. -/
inductive Effect
  | warning
  | errorNoDevicesFound
  | errorInvalidParameter
  | errorDriver
  | nativeCreatePort
  | nativeSubscribe
  | nativeSubFree
  | nativeUnsubscribe
  | jackOpenClient
  | jackActivate
  | jackRegisterPort
  | jackConnect
  | jackUnregisterPort
deriving DecidableEq, Repr

/-! ## ALSA sequencer output driver (`midi_out_alsa`) -/

/-- Mutable driver fields of `midi_out_alsa` (alsa_seq/midi_out.hpp):
`connected_` flag, `vport` (negative when no virtual port exists),
`subscription` (whether the subscription pointer is set), the recorded
`bufferSize`, and the capacity the native `snd_midi_event` coder object is
actually bound to (32 at construction, changed only by a successful
`snd_midi_event_resize_buffer`).  `bufferSize` is declared `unsigned int`
(midi_out.hpp line 230): every operation that writes it stores the value
reduced modulo 2^32, so the field's invariant is `bufferSize < 2^32`. -/
structure midi_out_alsa.State where
  connected : Bool
  vport : Int
  subscription : Bool
  bufferSize : Nat
  coderCapacity : Nat
deriving DecidableEq, Repr

/-- Driver state right after a successful `midi_out_alsa` constructor:
not connected, `vport = -1`, no subscription, `bufferSize = 32` and the
coder bound to 32 bytes. -/
def midi_out_alsa.initState : midi_out_alsa.State :=
  { connected := false, vport := -1, subscription := false
    bufferSize := 32, coderCapacity := 32 }

/-- Results the ALSA sequencer returns during `open_port`: how many
write-capable ports the enumeration sees, the result of
`snd_seq_create_simple_port`, and whether subscription allocation and
`snd_seq_subscribe_port` succeed. -/
structure alsa_open_env where
  portCount : Nat
  createPortResult : Int
  subMallocOk : Bool
  subscribeOk : Bool

/-- Modelled from the spec: `alsa_data::get_port_count` lives in
alsa_seq/helpers.hpp which is not in src/.  Per spec section 4.2 it queries
the native subsystem for all visible endpoints matching the capability and
returns the count (0 when none / unreachable). -/
def alsa_data.get_port_count (env : alsa_open_env) : Nat := env.portCount

/-- Modelled from the spec: `alsa_seq::port_info` lives in
alsa_seq/helpers.hpp which is not in src/.  Per spec sections 4.2 and 7 it
enumerates the matching endpoints and reports whether the requested index
lies inside the enumerated range (nonzero return in the C code). -/
def alsa_seq.port_info (env : alsa_open_env) (portNumber : Nat) : Bool :=
  decide (portNumber < env.portCount)

/-- Embedding of `midi_out_alsa::open_port` (alsa_seq/midi_out.hpp lines
68-134): reject with a warning when already connected; no-devices-found
when the registry is empty; invalid-parameter when `port_info` fails for
the index; then lazily create the virtual port, allocate and bind the
subscription, and set `connected_` on success. -/
def midi_out_alsa.open_port (env : alsa_open_env) (s : midi_out_alsa.State)
    (portNumber : Nat) : midi_out_alsa.State × List Effect :=
  if s.connected then (s, [Effect.warning])
  else if alsa_data.get_port_count env < 1 then (s, [Effect.errorNoDevicesFound])
  else if alsa_seq.port_info env portNumber = false then (s, [Effect.errorInvalidParameter])
  else
    let s1 := if s.vport < 0 then { s with vport := env.createPortResult } else s
    let e1 := if s.vport < 0 then [Effect.nativeCreatePort] else []
    if s1.vport < 0 then (s1, e1 ++ [Effect.errorDriver])
    else if env.subMallocOk = false then
      (s1, e1 ++ [Effect.nativeSubFree, Effect.errorDriver])
    else
      let s2 := { s1 with subscription := true }
      if env.subscribeOk = false then (s2, e1 ++ [Effect.nativeSubFree, Effect.errorDriver])
      else ({ s2 with connected := true }, e1 ++ [Effect.nativeSubscribe])

/-- Embedding of `midi_out_alsa::close_port` (alsa_seq/midi_out.hpp lines
151-160): when connected, unsubscribe, free the subscription, null it and
clear `connected_`; otherwise do nothing. -/
def midi_out_alsa.close_port (s : midi_out_alsa.State) :
    midi_out_alsa.State × List Effect :=
  if s.connected then
    ({ s with connected := false, subscription := false },
     [Effect.nativeUnsubscribe, Effect.nativeSubFree])
  else (s, [])

/-- Embedding of `midi_out_alsa::set_client_name` (alsa_seq/midi_out.hpp
line 162).  The C++ body is `this->set_client_name(clientName);` — an
unconditional call to the very member being defined (the derived-class name
hides the `alsa_data` base helper), so the function never returns.  The
embedding is step indexed: `none` means no result is produced within the
given number of call steps. -/
def midi_out_alsa.set_client_name_fuel : Nat → String → Option (List Effect)
  | 0, _ => none
  | fuel + 1, clientName => midi_out_alsa.set_client_name_fuel fuel clientName

/-- Embedding of `midi_out_alsa::set_port_name` (alsa_seq/midi_out.hpp line
164), the same unconditional self call as `set_client_name`. -/
def midi_out_alsa.set_port_name_fuel : Nat → String → Option (List Effect)
  | 0, _ => none
  | fuel + 1, portName => midi_out_alsa.set_port_name_fuel fuel portName

/-! ## ALSA transmit path (`midi_out_alsa::send_message`) -/

/-- Result of one `snd_midi_event_encode` call: a negative return (`err`),
a produced event of type `SND_SEQ_EVENT_NONE` (`noEvent`), or a successful
encode consuming `consumed` input bytes. -/
inductive encode_result
  | err
  | noEvent
  | ok (consumed : Nat)
deriving DecidableEq, Repr

/-- Native results for one `send_message` call: whether
`snd_midi_event_resize_buffer` succeeds, the encode result at each byte
offset, and whether `snd_seq_event_output` succeeds for the chunk encoded
at each offset. -/
structure alsa_send_env where
  resize_ok : Bool
  encode : Nat → encode_result
  output_ok : Nat → Bool

/-- Outcome of the `send_message` control flow: clean completion, the
resize-failure driver error, one of the three warning aborts inside the
chunk loop, or fuel exhaustion (the C++ loop spinning without progress). -/
inductive send_status
  | done
  | resize_error
  | encode_error
  | incomplete_message
  | output_error
  | out_of_fuel
deriving DecidableEq, Repr

/-- Reporting side channel of each `send_message` outcome: the resize
failure is reported as a driver error, the in-loop aborts as warnings. -/
def send_status.report : send_status → List Effect
  | send_status.done => []
  | send_status.resize_error => [Effect.errorDriver]
  | send_status.encode_error => [Effect.warning]
  | send_status.incomplete_message => [Effect.warning]
  | send_status.output_error => [Effect.warning]
  | send_status.out_of_fuel => []

/-- Embedding of the chunk loop of `midi_out_alsa::send_message`
(alsa_seq/midi_out.hpp lines 193-225): while `offset < size`, encode the
next chunk, abort with a warning on encode failure or an empty event,
advance `offset` by the consumed byte count and queue the event, aborting
on queueing failure.  Returns the (offset, consumed) pairs of the chunks
queued for transmission.  The C++ loop is unbounded; the embedding is fuel
indexed and marks a run that exhausts its fuel. -/
def midi_out_alsa.sendChunks (env : alsa_send_env) (size : Nat) :
    Nat → Nat → List (Nat × Nat) × send_status
  | 0, offset =>
    if offset < size then ([], send_status.out_of_fuel) else ([], send_status.done)
  | fuel + 1, offset =>
    if offset < size then
      match env.encode offset with
      | encode_result.err => ([], send_status.encode_error)
      | encode_result.noEvent => ([], send_status.incomplete_message)
      | encode_result.ok consumed =>
        if env.output_ok offset then
          let r := midi_out_alsa.sendChunks env size fuel (offset + consumed)
          ((offset, consumed) :: r.1, r.2)
        else ([], send_status.output_error)
    else ([], send_status.done)

/-- Embedding of `midi_out_alsa::send_message` (alsa_seq/midi_out.hpp lines
177-227): when the message is longer than `bufferSize`, first record the
new size in `bufferSize`, then resize the native coder; resize failure
aborts with a driver error (the coder keeps its old capacity).  Otherwise
run the chunk loop.  The assignment `this->bufferSize = size` stores a
`std::size_t` into the `unsigned int` field, truncating modulo 2^32; the
comparison, the resize call and the chunk loop all use the full `size_t`
length.  Returns (new state, chunks queued, outcome). -/
def midi_out_alsa.send_message (env : alsa_send_env) (s : midi_out_alsa.State)
    (size : Nat) : midi_out_alsa.State × List (Nat × Nat) × send_status :=
  if s.bufferSize < size then
    let s1 := { s with bufferSize := size % 2 ^ 32 }
    if env.resize_ok then
      let s2 := { s1 with coderCapacity := size }
      let r := midi_out_alsa.sendChunks env size size 0
      (s2, r.1, r.2)
    else (s1, [], send_status.resize_error)
  else
    let r := midi_out_alsa.sendChunks env size size 0
    (s, r.1, r.2)

/-- Iterated sends across the driver's lifetime: fold `send_message` over a
list of (native environment, message size) calls. -/
def midi_out_alsa.send_many (s : midi_out_alsa.State) :
    List (alsa_send_env × Nat) → midi_out_alsa.State
  | [] => s
  | (env, size) :: rest =>
    midi_out_alsa.send_many (midi_out_alsa.send_message env s size).1 rest

/-- The offset/length pairs `chunks` tile the byte range from `offset` up
to `size` consecutively: each chunk starts where the previous one ended,
consumes at least one byte, and the tiling ends at or beyond `size`. -/
def covers : Nat → Nat → List (Nat × Nat) → Prop
  | offset, size, [] => size ≤ offset
  | offset, size, (o, c) :: rest => o = offset ∧ 1 ≤ c ∧ covers (offset + c) size rest

/-- Total byte count of a chunk list. -/
def chunkLen (chunks : List (Nat × Nat)) : Nat :=
  (chunks.map Prod.snd).sum

/-! ## JACK input driver (`midi_in_jack`): port lifecycle -/

/-- Mutable lifecycle fields of `midi_in_jack` (jack/midi_in.hpp):
whether the `jack_client_t*` and `jack_port_t*` pointers are non-null, and
the `connected_` flag. -/
structure midi_in_jack.PortState where
  client : Bool
  port : Bool
  connected : Bool
deriving DecidableEq, Repr

/-- Driver lifecycle state right after the `midi_in_jack` constructor body
sets `port = nullptr` and `client = nullptr` (before `connect()` runs). -/
def midi_in_jack.initPortState : midi_in_jack.PortState :=
  { client := false, port := false, connected := false }

/-- Native results for the JACK lifecycle calls: whether
`check_port_name_length` passes, whether `jack_client_open` and
`jack_port_register` succeed, and the port list `jack_get_ports` returns
(`[]` for a null list). -/
structure jack_env where
  portNameOk : Bool
  clientOpenOk : Bool
  registerOk : Bool
  ports : List String

/-- Embedding of `midi_in_jack::connect` (jack/midi_in.hpp lines 138-154):
nothing when the client already exists, otherwise open the JACK client
(registering the process callback and activating on success), or report a
warning when the server is unreachable. -/
def midi_in_jack.connect (env : jack_env) (s : midi_in_jack.PortState) :
    midi_in_jack.PortState × List Effect :=
  if s.client then (s, [])
  else if env.clientOpenOk then
    ({ s with client := true }, [Effect.jackOpenClient, Effect.jackActivate])
  else (s, [Effect.warning])

/-- Embedding of `midi_in_jack::get_port_count` (jack/midi_in.hpp lines
108-126): 0 with no client, otherwise the length of the list
`jack_get_ports` returns. -/
def midi_in_jack.get_port_count (env : jack_env) (s : midi_in_jack.PortState) : Nat :=
  if s.client then env.ports.length else 0

/-- Modelled from the spec: the body of `jack_helpers::get_port_name`
(jack/helpers.hpp) is not in src/.  Per spec sections 4.2 and 7 it re-runs
the enumeration and returns the display name at the given position,
reporting invalid-parameter for an index outside the enumerated range (the
C++ signature still returns a string, empty in that case). -/
def midi_in_jack.get_port_name (env : jack_env) (portNumber : Nat) :
    String × List Effect :=
  match env.ports.get? portNumber with
  | some n => (n, [])
  | none => ("", [Effect.errorInvalidParameter])

/-- Embedding of `midi_in_jack::open_port` (jack/midi_in.hpp lines 41-64):
after the port-name length check and `connect()`, register the local input
port if none exists yet (failing with a driver error when registration
fails), then resolve the remote port name for the index, call
`jack_connect`, and set `connected_ = true`.  Note the source performs no
already-connected check and no index validation of its own. -/
def midi_in_jack.open_port (env : jack_env) (s : midi_in_jack.PortState)
    (portNumber : Nat) (portName : String) : midi_in_jack.PortState × List Effect :=
  if env.portNameOk = false then (s, [Effect.warning])
  else
    let c := midi_in_jack.connect env s
    let s1 := c.1
    let s2 := if s1.port = false ∧ s1.client = true ∧ env.registerOk = true then
        { s1 with port := true } else s1
    let e2 : List Effect := if s1.port = false ∧ s1.client = true ∧ env.registerOk = true then
        [Effect.jackRegisterPort] else []
    if s2.port = false then (s2, c.2 ++ e2 ++ [Effect.errorDriver])
    else
      let n := midi_in_jack.get_port_name env portNumber
      ({ s2 with connected := true }, c.2 ++ e2 ++ n.2 ++ [Effect.jackConnect])

/-- Embedding of `midi_in_jack::close_port` (jack/midi_in.hpp lines 82-90):
return immediately when no port exists; otherwise unregister the port,
null it and clear `connected_`. -/
def midi_in_jack.close_port (s : midi_in_jack.PortState) :
    midi_in_jack.PortState × List Effect :=
  if s.port then
    ({ s with port := false, connected := false }, [Effect.jackUnregisterPort])
  else (s, [])

/-- Embedding of `midi_in_jack::set_client_name` (jack/midi_in.hpp lines
92-97): an unconditional warning that the operation is not implemented for
the JACK API; the state is untouched. -/
def midi_in_jack.set_client_name (s : midi_in_jack.PortState) :
    midi_in_jack.PortState × List Effect :=
  (s, [Effect.warning])

/-! ## JACK input driver: receive path (`midi_in_jack::jackProcessIn`) -/

/-- Ignore-filter fields of `input_configuration`
(detail/midi_in.hpp, read by the process callback as
`configuration.ignore_sysex` / `ignore_timing` / `ignore_sensing`). -/
structure input_configuration where
  ignore_sysex : Bool
  ignore_timing : Bool
  ignore_sensing : Bool
deriving DecidableEq, Repr

/-- One logical MIDI message as handed to the configured callback: raw
bytes plus the per-message delta timestamp in seconds. -/
structure midi_message where
  bytes : List Nat
  timestamp : ℚ
deriving DecidableEq, Repr

/-- Message-assembler state of `midi_in_jack` persisting across process
callbacks: the `firstMessage` and `continueSysex` flags, the accumulating
`message` (bytes and its timestamp field) and `lastTime`. -/
structure midi_in_jack.State where
  firstMessage : Bool
  continueSysex : Bool
  msgBytes : List Nat
  msgTimestamp : ℚ
  lastTime : Nat
deriving DecidableEq, Repr

/-- Assembler state of a freshly constructed driver: first-message flag
set, no continuation pending, empty accumulator, zero clock. -/
def midi_in_jack.initState : midi_in_jack.State :=
  { firstMessage := true, continueSysex := false, msgBytes := []
    msgTimestamp := 0, lastTime := 0 }

/-- The unsigned 64-bit subtraction `time - lastTime` performed on
`jack_time_t` values (wraps modulo 2^64). -/
def timeDelta (last t : Nat) : Nat := (2 ^ 64 + t - last) % 2 ^ 64

/-- The fragment's leading status byte, `event.buffer[0]`. -/
def headByte : List Nat → Nat
  | [] => 0
  | x :: _ => x

/-- The fragment's final byte, `event.buffer[event.size - 1]`. -/
def lastByte : List Nat → Nat
  | [] => 0
  | [x] => x
  | _ :: x :: xs => lastByte (x :: xs)

/-- Embedding of one iteration of the event loop in
`midi_in_jack::jackProcessIn` (jack/midi_in.hpp lines 169-235) on the
fragment `frag` read at native clock value `time`: compute the delta
timestamp (zero while `firstMessage` is set), clear the accumulator unless
a SysEx continuation is pending, append the fragment bytes unless this is
a (possibly continued) SysEx being ignored, update `continueSysex` and
apply the ignore filters per the leading status byte, and deliver the
accumulated message when no continuation remains pending. -/
def processEvent (cfg : input_configuration) (s : midi_in_jack.State)
    (frag : List Nat) (time : Nat) : midi_in_jack.State × Option midi_message :=
  let ts : ℚ := if s.firstMessage then 0 else (timeDelta s.lastTime time : ℚ) / 1000000
  let lead : Nat := headByte frag
  let lastB : Nat := lastByte frag
  let kept : List Nat := if s.continueSysex then s.msgBytes else []
  let acc : List Nat :=
    if (s.continueSysex = true ∨ lead = 0xF0) ∧ cfg.ignore_sysex = true then kept
    else kept ++ frag
  let step : Bool × Bool :=
    if lead = 0xF0 then (if lastB = 0xF7 then false else true, cfg.ignore_sysex)
    else if lead = 0xF1 ∨ lead = 0xF8 then (s.continueSysex, cfg.ignore_timing)
    else if lead = 0xFE then (s.continueSysex, cfg.ignore_sensing)
    else if s.continueSysex then (if lastB = 0xF7 then false else true, cfg.ignore_sysex)
    else (s.continueSysex, false)
  if step.2 then
    ({ firstMessage := false, continueSysex := step.1, msgBytes := acc
       msgTimestamp := ts, lastTime := time }, none)
  else if step.1 then
    ({ firstMessage := false, continueSysex := step.1, msgBytes := acc
       msgTimestamp := ts, lastTime := time }, none)
  else
    ({ firstMessage := false, continueSysex := step.1, msgBytes := []
       msgTimestamp := ts, lastTime := time }, some { bytes := acc, timestamp := ts })

/-- The whole event loop of one or more `jackProcessIn` invocations:
process the queued (fragment, native time) events in order, collecting the
messages delivered to the configured callback. -/
def processEvents (cfg : input_configuration) (s : midi_in_jack.State) :
    List (List Nat × Nat) → midi_in_jack.State × List midi_message
  | [] => (s, [])
  | (frag, t) :: rest =>
    let r := processEvent cfg s frag t
    let r2 := processEvents cfg r.1 rest
    (r2.1, r.2.toList ++ r2.2)

/-! ## Helper lemmas -/

/-- When no SysEx continuation is pending, the process callback clears the
accumulator before using it, so its behaviour does not depend on the bytes
left in `msgBytes`. -/
theorem processEvent_msgBytes_irrel (cfg : input_configuration)
    (s : midi_in_jack.State) (frag : List Nat) (t : Nat) (b : List Nat)
    (h : s.continueSysex = false) :
    processEvent cfg { s with msgBytes := b } frag t = processEvent cfg s frag t := by
  simp [processEvent, h]

/-- For a message shorter than 2^32 bytes, the recorded `bufferSize` does
not decrease across one `send_message` call, whatever the native subsystem
does (a longer message truncates on assignment and can decrease it). -/
theorem send_message_bufferSize_mono (env : alsa_send_env)
    (s : midi_out_alsa.State) (size : Nat) (hs : size < 2 ^ 32) :
    s.bufferSize ≤ (midi_out_alsa.send_message env s size).1.bufferSize := by
  have hmod : size % 2 ^ 32 = size := Nat.mod_eq_of_lt hs
  unfold midi_out_alsa.send_message
  split
  · split
    · simp [hmod]
      omega
    · simp [hmod]
      omega
  · simp

/-- The recorded `bufferSize` never decreases across any sequence of
`send_message` calls whose messages are all shorter than 2^32 bytes. -/
theorem send_many_bufferSize_mono (calls : List (alsa_send_env × Nat))
    (hcalls : ∀ c ∈ calls, c.2 < 2 ^ 32) :
    ∀ s : midi_out_alsa.State,
      s.bufferSize ≤ (midi_out_alsa.send_many s calls).bufferSize := by
  induction calls with
  | nil => intro s; exact Nat.le_refl _
  | cons hd tl ih =>
    intro s
    calc s.bufferSize ≤ (midi_out_alsa.send_message hd.1 s hd.2).1.bufferSize :=
          send_message_bufferSize_mono hd.1 s hd.2 (hcalls hd (by simp))
      _ ≤ _ := by
          simpa [midi_out_alsa.send_many] using
            ih (fun c hc => hcalls c (List.mem_cons_of_mem hd hc))
              (midi_out_alsa.send_message hd.1 s hd.2).1

/-- With enough fuel, an encoder that always succeeds with positive
progress and a queue that always accepts make the chunk loop tile the whole
byte range and finish cleanly. -/
theorem sendChunks_ok (env : alsa_send_env) (size : Nat) :
    ∀ fuel offset, size - offset ≤ fuel →
    (∀ o, offset ≤ o → o < size →
      ∃ c, env.encode o = encode_result.ok c ∧ 1 ≤ c ∧ o + c ≤ size) →
    (∀ o, offset ≤ o → o < size → env.output_ok o = true) →
    covers offset size (midi_out_alsa.sendChunks env size fuel offset).1 ∧
    chunkLen (midi_out_alsa.sendChunks env size fuel offset).1 = size - offset ∧
    (midi_out_alsa.sendChunks env size fuel offset).2 = send_status.done := by
  intro fuel
  induction fuel with
  | zero =>
    intro offset hfuel _ _
    have hle : size ≤ offset := by omega
    have hnot : ¬ offset < size := by omega
    simp only [midi_out_alsa.sendChunks, hnot, if_false, ite_false, covers, chunkLen,
      List.map_nil, List.sum_nil]
    exact ⟨hle, by omega, by trivial⟩
  | succ n ih =>
    intro offset hfuel henc hout
    by_cases h : offset < size
    · obtain ⟨c, hc, hc1, hc2⟩ := henc offset (Nat.le_refl _) h
      have hq : env.output_ok offset = true := hout offset (Nat.le_refl _) h
      have ihr := ih (offset + c) (by omega)
        (fun o ho1 ho2 => henc o (by omega) ho2)
        (fun o ho1 ho2 => hout o (by omega) ho2)
      simp only [midi_out_alsa.sendChunks, h, if_pos, hc, hq, if_true, covers, chunkLen,
        List.map_cons, List.sum_cons]
      refine ⟨⟨by trivial, hc1, ihr.1⟩, ?_, ihr.2.2⟩
      have := ihr.2.1
      simp only [chunkLen] at this
      omega
    · simp only [midi_out_alsa.sendChunks, h, if_false, ite_false, covers, chunkLen,
        List.map_nil, List.sum_nil]
      exact ⟨by omega, by omega, by trivial⟩

/-! ## Claim theorems -/

/-- Claim C10: for every driver in every reachable state, calling
`close_port()` twice in a row has the same observable effect as calling it
once — the second call changes no state and reports no error, no warning
and no native call, for both `midi_out_alsa` and `midi_in_jack`. -/
theorem claim_C10_close_port_idempotent :
    (∀ s : midi_out_alsa.State,
      midi_out_alsa.close_port (midi_out_alsa.close_port s).1
        = ((midi_out_alsa.close_port s).1, [])) ∧
    (∀ s : midi_in_jack.PortState,
      midi_in_jack.close_port (midi_in_jack.close_port s).1
        = ((midi_in_jack.close_port s).1, [])) := by
  constructor
  · intro s
    by_cases h : s.connected <;> simp [midi_out_alsa.close_port, h]
  · intro s
    by_cases h : s.port <;> simp [midi_in_jack.close_port, h]

/-- Claim C3 (the code bug): `midi_out_alsa::set_client_name` and
`midi_out_alsa::set_port_name` are unconditional self calls, so for every
number of execution steps and every name argument they produce no result —
the call never terminates, instead of returning with at most a warning as
the claim states. -/
theorem claim_C3_alsa_rename_never_returns :
    ∀ (fuel : Nat) (name : String),
      midi_out_alsa.set_client_name_fuel fuel name = none ∧
      midi_out_alsa.set_port_name_fuel fuel name = none := by
  intro fuel
  induction fuel with
  | zero => intro name; exact ⟨rfl, rfl⟩
  | succ n ih =>
    intro name
    simpa [midi_out_alsa.set_client_name_fuel, midi_out_alsa.set_port_name_fuel]
      using ih name

/-- Claim C5, counterexample: with the encode buffer at its initial 32-byte
capacity and a failing native resize, sending a 100-byte message transmits
nothing and reports a driver error, but the driver state is changed — the
recorded capacity becomes 100 while the native coder is still bound to 32,
so the recorded capacity no longer equals the bound capacity. -/
theorem claim_C5_counterexample :
    (midi_out_alsa.send_message
        { resize_ok := false, encode := fun _ => encode_result.err
          output_ok := fun _ => true }
        midi_out_alsa.initState 100).2.1 = [] ∧
    (midi_out_alsa.send_message
        { resize_ok := false, encode := fun _ => encode_result.err
          output_ok := fun _ => true }
        midi_out_alsa.initState 100).2.2 = send_status.resize_error ∧
    (midi_out_alsa.send_message
        { resize_ok := false, encode := fun _ => encode_result.err
          output_ok := fun _ => true }
        midi_out_alsa.initState 100).1.bufferSize = 100 ∧
    (midi_out_alsa.send_message
        { resize_ok := false, encode := fun _ => encode_result.err
          output_ok := fun _ => true }
        midi_out_alsa.initState 100).1.coderCapacity = 32 := by
  refine ⟨?_, ?_, ?_, ?_⟩ <;> rfl

/-- Claim C5 as amended: when the message length exceeds the recorded
capacity and the native buffer resize fails, `send_message` reports a
driver error and transmits nothing, but the recorded capacity has already
been set to the message length reduced modulo 2^32 (exactly the length for
any message shorter than 2^32, as here) while the native coder keeps its
old capacity, so the two no longer agree. -/
theorem claim_C5_amended (env : alsa_send_env) (s : midi_out_alsa.State)
    (size : Nat) (hg : s.bufferSize < size) (hs : size < 2 ^ 32)
    (hr : env.resize_ok = false) (hinv : s.coderCapacity = s.bufferSize) :
    (midi_out_alsa.send_message env s size).2.1 = [] ∧
    (midi_out_alsa.send_message env s size).2.2 = send_status.resize_error ∧
    send_status.report (midi_out_alsa.send_message env s size).2.2
      = [Effect.errorDriver] ∧
    (midi_out_alsa.send_message env s size).1.bufferSize = size ∧
    (midi_out_alsa.send_message env s size).1.coderCapacity = s.coderCapacity ∧
    (midi_out_alsa.send_message env s size).1.bufferSize
      ≠ (midi_out_alsa.send_message env s size).1.coderCapacity := by
  have hmod : size % 2 ^ 32 = size := Nat.mod_eq_of_lt hs
  simp only [midi_out_alsa.send_message, if_pos hg, hr, if_false, Bool.false_eq_true,
    hmod]
  exact ⟨by trivial, by trivial, by trivial, by trivial, by trivial, by omega⟩

/-- Claim C5, witness for the amended theorem at a concrete input. -/
theorem claim_C5_witness :
    (midi_out_alsa.send_message
        { resize_ok := false, encode := fun _ => encode_result.noEvent
          output_ok := fun _ => false }
        midi_out_alsa.initState 33).2.1 = [] ∧
    (midi_out_alsa.send_message
        { resize_ok := false, encode := fun _ => encode_result.noEvent
          output_ok := fun _ => false }
        midi_out_alsa.initState 33).2.2 = send_status.resize_error ∧
    send_status.report (midi_out_alsa.send_message
        { resize_ok := false, encode := fun _ => encode_result.noEvent
          output_ok := fun _ => false }
        midi_out_alsa.initState 33).2.2 = [Effect.errorDriver] ∧
    (midi_out_alsa.send_message
        { resize_ok := false, encode := fun _ => encode_result.noEvent
          output_ok := fun _ => false }
        midi_out_alsa.initState 33).1.bufferSize = 33 ∧
    (midi_out_alsa.send_message
        { resize_ok := false, encode := fun _ => encode_result.noEvent
          output_ok := fun _ => false }
        midi_out_alsa.initState 33).1.coderCapacity
      = midi_out_alsa.initState.coderCapacity ∧
    (midi_out_alsa.send_message
        { resize_ok := false, encode := fun _ => encode_result.noEvent
          output_ok := fun _ => false }
        midi_out_alsa.initState 33).1.bufferSize
      ≠ (midi_out_alsa.send_message
        { resize_ok := false, encode := fun _ => encode_result.noEvent
          output_ok := fun _ => false }
        midi_out_alsa.initState 33).1.coderCapacity :=
  claim_C5_amended _ midi_out_alsa.initState 33 (by decide) (by decide) rfl rfl

/-- Claim C9, counterexample: `bufferSize` is an `unsigned int` assigned
from a `std::size_t`, so a message of length 2^32 + 50 against a recorded
capacity of 100 stores (2^32 + 50) mod 2^32 = 50 — not the message length,
and a decrease of the recorded capacity. -/
theorem claim_C9_counterexample :
    (midi_out_alsa.send_message
        { resize_ok := true, encode := fun _ => encode_result.ok 1
          output_ok := fun _ => true }
        { connected := false, vport := -1, subscription := false
          bufferSize := 100, coderCapacity := 100 }
        (2 ^ 32 + 50)).1.bufferSize = 50 ∧
    (midi_out_alsa.send_message
        { resize_ok := true, encode := fun _ => encode_result.ok 1
          output_ok := fun _ => true }
        { connected := false, vport := -1, subscription := false
          bufferSize := 100, coderCapacity := 100 }
        (2 ^ 32 + 50)).1.bufferSize ≠ 2 ^ 32 + 50 ∧
    (midi_out_alsa.send_message
        { resize_ok := true, encode := fun _ => encode_result.ok 1
          output_ok := fun _ => true }
        { connected := false, vport := -1, subscription := false
          bufferSize := 100, coderCapacity := 100 }
        (2 ^ 32 + 50)).1.bufferSize < 100 := by
  refine ⟨?_, ?_, ?_⟩ <;> decide

/-- Claim C9 as amended: for a message shorter than 2^32 bytes that is
longer than the current capacity, `send_message` grows the recorded
capacity to exactly the message length; the capacity never decreases,
neither in one such call nor across any sequence of calls with messages
shorter than 2^32; and when the resize succeeds and the native encoder and
output queue succeed at every offset (each encode consuming at least one
and at most the remaining bytes), the chunk loop tiles the message bytes
from offset 0 to its full length with consecutive chunks and completes —
the message is never truncated.  A message of length at least 2^32 instead
records the length modulo 2^32 in the `unsigned int` field, which can
shrink the recorded capacity. -/
theorem claim_C9_amended (env : alsa_send_env)
    (s : midi_out_alsa.State) (size : Nat)
    (hg : s.bufferSize < size) (hs : size < 2 ^ 32) (hr : env.resize_ok = true)
    (henc : ∀ o, o < size →
      ∃ c, env.encode o = encode_result.ok c ∧ 1 ≤ c ∧ o + c ≤ size)
    (hout : ∀ o, o < size → env.output_ok o = true) :
    (midi_out_alsa.send_message env s size).1.bufferSize = size ∧
    (∀ (env2 : alsa_send_env) (s2 : midi_out_alsa.State) (size2 : Nat),
      size2 < 2 ^ 32 →
      s2.bufferSize ≤ (midi_out_alsa.send_message env2 s2 size2).1.bufferSize) ∧
    (∀ (s3 : midi_out_alsa.State) (calls : List (alsa_send_env × Nat)),
      (∀ c ∈ calls, c.2 < 2 ^ 32) →
      s3.bufferSize ≤ (midi_out_alsa.send_many s3 calls).bufferSize) ∧
    covers 0 size (midi_out_alsa.send_message env s size).2.1 ∧
    chunkLen (midi_out_alsa.send_message env s size).2.1 = size ∧
    (midi_out_alsa.send_message env s size).2.2 = send_status.done := by
  have hch := sendChunks_ok env size size 0 (by omega)
    (fun o _ ho => henc o ho) (fun o _ ho => hout o ho)
  have hmod : size % 2 ^ 32 = size := Nat.mod_eq_of_lt hs
  simp only [midi_out_alsa.send_message, if_pos hg, hr, if_true, hmod]
  exact ⟨by trivial,
    fun env2 s2 size2 h2 => send_message_bufferSize_mono env2 s2 size2 h2,
    fun s3 calls hc => send_many_bufferSize_mono calls hc s3,
    hch.1, by simpa using hch.2.1, hch.2.2⟩

/-- Claim C9, witness: a 34-byte message against a 32-byte buffer with an
encoder that always consumes three bytes (or the remainder). -/
theorem claim_C9_witness :
    (midi_out_alsa.send_message
        { resize_ok := true
          encode := fun o => encode_result.ok (min 3 (34 - o))
          output_ok := fun _ => true }
        midi_out_alsa.initState 34).1.bufferSize = 34 ∧
    (∀ (env2 : alsa_send_env) (s2 : midi_out_alsa.State) (size2 : Nat),
      size2 < 2 ^ 32 →
      s2.bufferSize ≤ (midi_out_alsa.send_message env2 s2 size2).1.bufferSize) ∧
    (∀ (s3 : midi_out_alsa.State) (calls : List (alsa_send_env × Nat)),
      (∀ c ∈ calls, c.2 < 2 ^ 32) →
      s3.bufferSize ≤ (midi_out_alsa.send_many s3 calls).bufferSize) ∧
    covers 0 34 (midi_out_alsa.send_message
        { resize_ok := true
          encode := fun o => encode_result.ok (min 3 (34 - o))
          output_ok := fun _ => true }
        midi_out_alsa.initState 34).2.1 ∧
    chunkLen (midi_out_alsa.send_message
        { resize_ok := true
          encode := fun o => encode_result.ok (min 3 (34 - o))
          output_ok := fun _ => true }
        midi_out_alsa.initState 34).2.1 = 34 ∧
    (midi_out_alsa.send_message
        { resize_ok := true
          encode := fun o => encode_result.ok (min 3 (34 - o))
          output_ok := fun _ => true }
        midi_out_alsa.initState 34).2.2 = send_status.done :=
  claim_C9_amended _ midi_out_alsa.initState 34 (by decide) (by decide) rfl
    (fun o ho => ⟨min 3 (34 - o), rfl, by omega, by omega⟩)
    (fun o _ => rfl)

/-- Claim C1, counterexample: a connected `midi_in_jack` driver (client,
port and connected flag all set, port-name check passing, one remote port
visible) accepts `open_port(0, "x")` without any warning and performs a
native `jack_connect` binding — the source has no already-connected
rejection. -/
theorem claim_C1_counterexample :
    (midi_in_jack.open_port
        { portNameOk := true, clientOpenOk := true, registerOk := true
          ports := ["system:midi_capture_1"] }
        { client := true, port := true, connected := true } 0 "x").2
      = [Effect.jackConnect] ∧
    Effect.warning ∉ (midi_in_jack.open_port
        { portNameOk := true, clientOpenOk := true, registerOk := true
          ports := ["system:midi_capture_1"] }
        { client := true, port := true, connected := true } 0 "x").2 ∧
    Effect.jackConnect ∈ (midi_in_jack.open_port
        { portNameOk := true, clientOpenOk := true, registerOk := true
          ports := ["system:midi_capture_1"] }
        { client := true, port := true, connected := true } 0 "x").2 := by
  refine ⟨rfl, ?_, ?_⟩ <;> decide

/-- Claim C1 as amended: `midi_out_alsa::open_port` while connected reports
exactly one warning, performs no native call and leaves the state exactly
as it was; `midi_in_jack::open_port` while connected (client and port
existing, name check passing) also leaves the lifecycle state unchanged,
but reports no warning and performs a native `jack_connect` binding to the
newly resolved remote port instead of rejecting the call. -/
theorem claim_C1_amended (envA : alsa_open_env) (sA : midi_out_alsa.State)
    (n : Nat) (envJ : jack_env) (sJ : midi_in_jack.PortState) (m : Nat)
    (pn : String) (hA : sA.connected = true) (hJ : sJ.connected = true)
    (hJc : sJ.client = true) (hJp : sJ.port = true)
    (hname : envJ.portNameOk = true) :
    midi_out_alsa.open_port envA sA n = (sA, [Effect.warning]) ∧
    (midi_in_jack.open_port envJ sJ m pn).1 = sJ ∧
    Effect.jackConnect ∈ (midi_in_jack.open_port envJ sJ m pn).2 ∧
    Effect.warning ∉ (midi_in_jack.open_port envJ sJ m pn).2 := by
  obtain ⟨cl, po, co⟩ := sJ
  simp only at hJ hJc hJp
  subst hJ
  subst hJc
  subst hJp
  refine ⟨by simp [midi_out_alsa.open_port, hA], ?_, ?_, ?_⟩ <;>
    simp only [midi_in_jack.open_port, midi_in_jack.connect,
      midi_in_jack.get_port_name, hname, Bool.true_eq_false, if_false,
      ite_false, if_true, ite_true, false_and, and_false] <;>
    rcases hg : envJ.ports.get? m with _ | nm <;> simp [hg]

/-- Claim C1, witness for the amended theorem at a concrete input. -/
theorem claim_C1_witness :
    midi_out_alsa.open_port
        { portCount := 1, createPortResult := 0, subMallocOk := true
          subscribeOk := true }
        { connected := true, vport := 0, subscription := true
          bufferSize := 32, coderCapacity := 32 } 0
      = ({ connected := true, vport := 0, subscription := true
           bufferSize := 32, coderCapacity := 32 }, [Effect.warning]) ∧
    (midi_in_jack.open_port
        { portNameOk := true, clientOpenOk := true, registerOk := true
          ports := ["system:midi_capture_1"] }
        { client := true, port := true, connected := true } 0 "y").1
      = { client := true, port := true, connected := true } ∧
    Effect.jackConnect ∈ (midi_in_jack.open_port
        { portNameOk := true, clientOpenOk := true, registerOk := true
          ports := ["system:midi_capture_1"] }
        { client := true, port := true, connected := true } 0 "y").2 ∧
    Effect.warning ∉ (midi_in_jack.open_port
        { portNameOk := true, clientOpenOk := true, registerOk := true
          ports := ["system:midi_capture_1"] }
        { client := true, port := true, connected := true } 0 "y").2 :=
  claim_C1_amended _ _ 0 _ _ 0 "y" rfl rfl rfl rfl rfl

/-- Claim C2, counterexample: a `midi_in_jack` driver with a client but no
port yet, not connected, with an empty port registry (so
`get_port_count() = 0` and index 0 is out of range) still ends up with
`connected_ = true` after `open_port(0, "x")` — the JACK input driver does
not leave its connection state unchanged on an out-of-range index. -/
theorem claim_C2_counterexample :
    midi_in_jack.get_port_count
        { portNameOk := true, clientOpenOk := true, registerOk := true
          ports := [] }
        { client := true, port := false, connected := false } = 0 ∧
    (midi_in_jack.open_port
        { portNameOk := true, clientOpenOk := true, registerOk := true
          ports := [] }
        { client := true, port := false, connected := false } 0 "x").1.connected
      = true := by
  exact ⟨rfl, rfl⟩

/-- Claim C2 as amended: the ALSA output driver, when not already
connected, fails on an index at or beyond `get_port_count()` without
becoming connected and with its state exactly unchanged — reporting
no-devices-found when the registry is empty and invalid-parameter
otherwise; the JACK input driver performs no index validation of its own
and sets its connected flag even for an out-of-range index (provided the
local port exists or can be registered). -/
theorem claim_C2_amended (envA : alsa_open_env) (sA : midi_out_alsa.State)
    (idx : Nat) (envJ : jack_env) (sJ : midi_in_jack.PortState) (jdx : Nat)
    (pn : String) (hA : sA.connected = false)
    (hidx : alsa_data.get_port_count envA ≤ idx)
    (hname : envJ.portNameOk = true) (hJc : sJ.client = true)
    (hreg : envJ.registerOk = true) :
    midi_out_alsa.open_port envA sA idx
      = (sA, [if alsa_data.get_port_count envA = 0 then Effect.errorNoDevicesFound
              else Effect.errorInvalidParameter]) ∧
    (midi_in_jack.open_port envJ sJ jdx pn).1.connected = true := by
  constructor
  · have hpi : alsa_seq.port_info envA idx = false := by
      simp only [alsa_seq.port_info, decide_eq_false_iff_not, not_lt]
      exact hidx
    by_cases hz : alsa_data.get_port_count envA = 0
    · simp [midi_out_alsa.open_port, hA, hz]
    · have h1 : ¬ alsa_data.get_port_count envA < 1 := by omega
      simp [midi_out_alsa.open_port, hA, h1, hpi, hz]
  · by_cases hp : sJ.port
    · simp [midi_in_jack.open_port, midi_in_jack.connect, hname, hJc, hp,
        midi_in_jack.get_port_name]
    · simp [midi_in_jack.open_port, midi_in_jack.connect, hname, hJc, hp, hreg,
        midi_in_jack.get_port_name]

/-- Claim C2, witness for the amended theorem at a concrete input. -/
theorem claim_C2_witness :
    midi_out_alsa.open_port
        { portCount := 2, createPortResult := 0, subMallocOk := true
          subscribeOk := true }
        { connected := false, vport := -1, subscription := false
          bufferSize := 32, coderCapacity := 32 } 5
      = ({ connected := false, vport := -1, subscription := false
           bufferSize := 32, coderCapacity := 32 },
         [if alsa_data.get_port_count
              { portCount := 2, createPortResult := 0, subMallocOk := true
                subscribeOk := true } = 0 then Effect.errorNoDevicesFound
          else Effect.errorInvalidParameter]) ∧
    (midi_in_jack.open_port
        { portNameOk := true, clientOpenOk := true, registerOk := true
          ports := [] }
        { client := true, port := false, connected := false } 7 "z").1.connected
      = true :=
  claim_C2_amended _ _ 5 _ _ 7 "z" rfl (by decide) rfl rfl rfl

/-- Claim C4, counterexample: with ignore-timing enabled and ignore-sysex
disabled, a `0xF1` fragment arriving while a SysEx reassembly is in
progress has its bytes appended to the accumulator, and the completed SysEx
message delivered to the callback contains them — the timing fragment's
bytes do end up in a delivered message. -/
theorem claim_C4_counterexample :
    ((processEvents
        { ignore_sysex := false, ignore_timing := true, ignore_sensing := false }
        midi_in_jack.initState
        [([0xF0, 1, 2], 0), ([0xF1, 5], 0), ([0xF7], 0)]).2.map
        midi_message.bytes = [[0xF0, 1, 2, 0xF1, 5, 0xF7]]) ∧
    0xF1 ∈ ((processEvents
        { ignore_sysex := false, ignore_timing := true, ignore_sensing := false }
        midi_in_jack.initState
        [([0xF0, 1, 2], 0), ([0xF1, 5], 0), ([0xF7], 0)]).2.map
        midi_message.bytes).flatten := by
  exact ⟨by decide, by decide⟩

/-- Claim C4 as amended: with ignore-timing enabled, a fragment whose
leading byte is `0xF1` is never itself delivered and leaves the SysEx
continuation-pending flag unchanged; when no SysEx reassembly is in
progress its bytes contribute nothing to later processing (the accumulator
is cleared before next use, so processing continues exactly as if the
accumulator were empty); but when a reassembly is in progress its bytes
stay in the accumulator and appear in the delivered SysEx message. -/
theorem claim_C4_amended (cfg : input_configuration) (s : midi_in_jack.State)
    (frag : List Nat) (t : Nat)
    (ht : cfg.ignore_timing = true) (hf : headByte frag = 0xF1) :
    (processEvent cfg s frag t).2 = none ∧
    (processEvent cfg s frag t).1.continueSysex = s.continueSysex ∧
    (s.continueSysex = false → ∀ (frag2 : List Nat) (t2 : Nat),
      processEvent cfg (processEvent cfg s frag t).1 frag2 t2
        = processEvent cfg
            { (processEvent cfg s frag t).1 with msgBytes := [] } frag2 t2) := by
  refine ⟨?_, ?_, ?_⟩
  · simp [processEvent, hf, ht]
  · simp [processEvent, hf, ht]
  · intro h frag2 t2
    have hcs : (processEvent cfg s frag t).1.continueSysex = false := by
      simp [processEvent, hf, ht, h]
    exact (processEvent_msgBytes_irrel cfg (processEvent cfg s frag t).1 frag2 t2
      [] hcs).symm

/-- Claim C4, witness for the amended theorem at a concrete input. -/
theorem claim_C4_witness :
    (processEvent
        { ignore_sysex := false, ignore_timing := true, ignore_sensing := false }
        midi_in_jack.initState [0xF1, 7] 3).2 = none ∧
    (processEvent
        { ignore_sysex := false, ignore_timing := true, ignore_sensing := false }
        midi_in_jack.initState [0xF1, 7] 3).1.continueSysex
      = midi_in_jack.initState.continueSysex ∧
    (midi_in_jack.initState.continueSysex = false →
      ∀ (frag2 : List Nat) (t2 : Nat),
      processEvent
          { ignore_sysex := false, ignore_timing := true, ignore_sensing := false }
          (processEvent
            { ignore_sysex := false, ignore_timing := true, ignore_sensing := false }
            midi_in_jack.initState [0xF1, 7] 3).1 frag2 t2
        = processEvent
            { ignore_sysex := false, ignore_timing := true, ignore_sensing := false }
            { (processEvent
                { ignore_sysex := false, ignore_timing := true, ignore_sensing := false }
                midi_in_jack.initState [0xF1, 7] 3).1 with msgBytes := [] }
            frag2 t2) :=
  claim_C4_amended
    { ignore_sysex := false, ignore_timing := true, ignore_sensing := false }
    midi_in_jack.initState [0xF1, 7] 3 rfl (by decide)

/-- Claim C6, counterexample: with ignore-sysex disabled (and ignore-timing
also disabled), the fragments `[0xF0, 1, 2]` then `[0xF1, 3, 0xF7]` — the
claimed shape with `c = 0xF1` — deliver zero messages and leave the
continuation-pending flag true, not exactly one message with flag false:
the timing-class case of the switch never re-evaluates the continuation. -/
theorem claim_C6_counterexample :
    (processEvents
        { ignore_sysex := false, ignore_timing := false, ignore_sensing := false }
        midi_in_jack.initState [([0xF0, 1, 2], 0), ([0xF1, 3, 0xF7], 0)]).2
      = [] ∧
    (processEvents
        { ignore_sysex := false, ignore_timing := false, ignore_sensing := false }
        midi_in_jack.initState
        [([0xF0, 1, 2], 0), ([0xF1, 3, 0xF7], 0)]).1.continueSysex = true := by
  exact ⟨by decide, by decide⟩

/-- Claim C6 as amended: provided the first fragment's final byte `b` is
not the SysEx terminator `0xF7` and the second fragment's leading byte `c`
is not one of the timing/sensing status bytes `0xF1`, `0xF8`, `0xFE`, the
two fragments `[0xF0, a, b]` then `[c, d, 0xF7]` delivered to a fresh
driver with ignore-sysex disabled produce exactly one callback message
`[0xF0, a, b, c, d, 0xF7]`, with continuation-pending false afterwards. -/
theorem claim_C6_amended (a b c d t1 t2 : Nat) (bt bs : Bool)
    (hb : b ≠ 0xF7) (hc1 : c ≠ 0xF1) (hc2 : c ≠ 0xF8) (hc3 : c ≠ 0xFE) :
    ((processEvents
        { ignore_sysex := false, ignore_timing := bt, ignore_sensing := bs }
        midi_in_jack.initState [([0xF0, a, b], t1), ([c, d, 0xF7], t2)]).2.map
        midi_message.bytes = [[0xF0, a, b, c, d, 0xF7]]) ∧
    (processEvents
        { ignore_sysex := false, ignore_timing := bt, ignore_sensing := bs }
        midi_in_jack.initState
        [([0xF0, a, b], t1), ([c, d, 0xF7], t2)]).1.continueSysex = false := by
  by_cases hc0 : c = 0xF0
  · subst hc0
    constructor <;>
      simp [processEvents, processEvent, midi_in_jack.initState, headByte, lastByte, hb]
  · constructor <;>
      simp [processEvents, processEvent, midi_in_jack.initState, headByte, lastByte,
        hb, hc0, hc1, hc2, hc3]

/-- Claim C6, witness for the amended theorem at a concrete input. -/
theorem claim_C6_witness :
    ((processEvents
        { ignore_sysex := false, ignore_timing := false, ignore_sensing := false }
        midi_in_jack.initState [([0xF0, 1, 2], 0), ([3, 4, 0xF7], 0)]).2.map
        midi_message.bytes = [[0xF0, 1, 2, 3, 4, 0xF7]]) ∧
    (processEvents
        { ignore_sysex := false, ignore_timing := false, ignore_sensing := false }
        midi_in_jack.initState
        [([0xF0, 1, 2], 0), ([3, 4, 0xF7], 0)]).1.continueSysex = false :=
  claim_C6_amended 1 2 3 4 0 0 false false (by decide) (by decide) (by decide)
    (by decide)

/-- Claim C7, counterexample: with ignore-sysex enabled, the claimed shape
at `b = 0xF7, c = 0x90` — fragments `[0xF0, 1, 0xF7]` then
`[0x90, 2, 0xF7]` — delivers one message `[0x90, 2, 0xF7]` to the
callback, not zero: the first SysEx completes immediately and is dropped,
and the second fragment is then an ordinary unfiltered message. -/
theorem claim_C7_counterexample :
    ((processEvents
        { ignore_sysex := true, ignore_timing := false, ignore_sensing := false }
        midi_in_jack.initState [([0xF0, 1, 0xF7], 0), ([0x90, 2, 0xF7], 0)]).2.map
        midi_message.bytes = [[0x90, 2, 0xF7]]) ∧
    (processEvents
        { ignore_sysex := true, ignore_timing := false, ignore_sensing := false }
        midi_in_jack.initState [([0xF0, 1, 0xF7], 0), ([0x90, 2, 0xF7], 0)]).2
      ≠ [] := by
  exact ⟨by decide, by decide⟩

/-- Claim C7 as amended: provided the first fragment's final byte `b` is
not the SysEx terminator `0xF7`, the two fragments `[0xF0, a, b]` then
`[c, d, 0xF7]` delivered to a fresh driver with ignore-sysex enabled
produce zero callback messages, whatever `a`, `c`, `d` and the other two
ignore flags are. -/
theorem claim_C7_amended (a b c d t1 t2 : Nat) (bt bs : Bool) (hb : b ≠ 0xF7) :
    (processEvents
        { ignore_sysex := true, ignore_timing := bt, ignore_sensing := bs }
        midi_in_jack.initState [([0xF0, a, b], t1), ([c, d, 0xF7], t2)]).2
      = [] := by
  simp only [processEvents, processEvent, midi_in_jack.initState, headByte, lastByte]
  simp [hb]
  split_ifs <;> simp_all

/-- Claim C7, witness for the amended theorem at a concrete input. -/
theorem claim_C7_witness :
    (processEvents
        { ignore_sysex := true, ignore_timing := false, ignore_sensing := false }
        midi_in_jack.initState [([0xF0, 1, 2], 0), ([3, 4, 0xF7], 0)]).2 = [] :=
  claim_C7_amended 1 2 3 4 0 0 false false (by decide)

/-- Claim C8, counterexample: on a fresh driver, a SysEx spanning two
fragments at native clock values 100 and 300 microseconds is the first
message ever delivered, yet its timestamp is `(300 - 100) * 1e-6 = 1/5000`
seconds, not `0.0`: the zero delta is attached to the first *fragment*,
and a message completed by a later fragment carries that fragment's
delta. -/
theorem claim_C8_counterexample :
    ((processEvents
        { ignore_sysex := false, ignore_timing := false, ignore_sensing := false }
        midi_in_jack.initState [([0xF0, 1, 2], 100), ([3, 4, 0xF7], 300)]).2.map
        midi_message.timestamp = [1 / 5000]) ∧
    (1 : ℚ) / 5000 ≠ 0 := by
  refine ⟨?_, by norm_num⟩
  norm_num [processEvents, processEvent, midi_in_jack.initState, headByte, lastByte,
    timeDelta]

/-- Claim C8 as amended: every message delivered to the callback carries a
non-negative timestamp, and any message delivered by a fragment processed
while the first-fragment flag is still set (in particular a message
completed by the very first fragment ever processed) carries timestamp
exactly 0; a message completed by a later fragment carries that final
fragment's delta from the previous fragment's native timestamp. -/
theorem claim_C8_amended (cfg : input_configuration) (s : midi_in_jack.State)
    (frag : List Nat) (t : Nat) (m : midi_message)
    (hm : (processEvent cfg s frag t).2 = some m) :
    (s.firstMessage = true → m.timestamp = 0) ∧ 0 ≤ m.timestamp := by
  simp only [processEvent, apply_ite Prod.snd] at hm
  split_ifs at hm
  all_goals have hM := Option.some.inj hm
  all_goals subst hM
  all_goals refine ⟨fun hf => by simp_all, ?_⟩
  all_goals simp
  all_goals positivity

/-- Claim C8, witness for the amended theorem at a concrete input. -/
theorem claim_C8_witness :
    (midi_in_jack.initState.firstMessage = true →
      ({ bytes := [0x90, 1, 2], timestamp := 0 } : midi_message).timestamp = 0) ∧
    0 ≤ ({ bytes := [0x90, 1, 2], timestamp := 0 } : midi_message).timestamp :=
  claim_C8_amended
    { ignore_sysex := false, ignore_timing := false, ignore_sensing := false }
    midi_in_jack.initState [0x90, 1, 2] 5
    { bytes := [0x90, 1, 2], timestamp := 0 } (by decide)
